import Mathlib

/-!
Shallow embedding of the firmware-guidance backend (`src/main.py`,
`src/schemas.py`): the wizard decision table (`wizard_steps`), the ADB
device probe (`adb_info`), and the firmware/consent persistence handlers
(`add_firmware`, `search_firmware`, `record_consent`), together with
theorems settling the specification claims about them.
-/

set_option maxHeartbeats 1000000

namespace Backend

instance {ε α : Type _} [DecidableEq ε] [DecidableEq α] : DecidableEq (Except ε α) := fun x y =>
  match x, y with
  | .ok a, .ok b =>
      if h : a = b then .isTrue (by rw [h]) else .isFalse (by simp [h])
  | .error a, .error b =>
      if h : a = b then .isTrue (by rw [h]) else .isFalse (by simp [h])
  | .ok _, .error _ => .isFalse (by simp)
  | .error _, .ok _ => .isFalse (by simp)

/-- Embedding of Python's `str.lower()`: per-character ASCII lower-casing
(the inputs the handlers lower-case are ASCII enum strings). -/
def pyLower (s : String) : String := ⟨s.data.map Char.toLower⟩

/-- HTTP error as raised by `HTTPException(status_code, detail)`. -/
structure HTTPError where
  status_code : Nat
  detail : String
deriving DecidableEq, Repr

/-- Request body of `POST /api/wizard/steps` (`WizardRequest` in `main.py`). -/
structure WizardRequest where
  soc : String
  method : String
  model : Option String
  android_version : Option String
deriving DecidableEq, Repr

/-- Response body of `POST /api/wizard/steps` (the dict returned at the end of
`wizard_steps` in `main.py`). -/
structure WizardResponse where
  soc : String
  method : String
  model : Option String
  android_version : Option String
  steps : List String
  disclaimer : String
deriving DecidableEq, Repr

/-- The set of supported SoC families checked at line 223 of `main.py`. -/
def socSet : List String := ["qualcomm", "mtk", "exynos"]

/-- The fixed fastboot step list (lines 229-238 of `main.py`). -/
def fastbootSteps : List String :=
  [ "Ensure OEM-unlocked bootloader if required by OEM; follow official guidance.",
    "Charge device above 50% and back up user data.",
    "Install official USB drivers and platform-tools.",
    "Reboot device to bootloader/fastboot mode.",
    "Use OEM-provided images matching exact model and Android version (14/15/16).",
    "Validate SHA256 checksum from OEM before proceeding.",
    "Use command-line fastboot to flash ONLY per OEM documentation.",
    "After completion, relock bootloader only if OEM permits and device boots fine." ]

/-- The fixed Odin/Download-Mode step list (lines 241-247 of `main.py`). -/
def odinSteps : List String :=
  [ "Install latest Samsung USB drivers.",
    "Download official firmware from Samsung channels (matching CSC and model).",
    "Start device in Download Mode.",
    "Open Odin on a trusted workstation, load BL/AP/CP/CSC as per OEM instructions.",
    "Verify SHA256 checksums and binary revision (bootloader version).",
    "Start process and wait until pass; do not disconnect.",
    "On success, boot to recovery and wipe cache/data only if recommended by OEM." ]

/-- The fixed adb-sideload step list (lines 250-256 of `main.py`). -/
def sideloadSteps : List String :=
  [ "Enable USB debugging and OEM unlocking if applicable.",
    "Download official OTA package for your exact model and Android version.",
    "Reboot to recovery and choose 'Apply update from ADB'.",
    "From workstation, run 'adb sideload <ota.zip>' per OEM guidance.",
    "Wait for verification and installation to complete.",
    "Reboot and perform post-update checks." ]

/-- The constant disclaimer string (line 267 of `main.py`). -/
def disclaimerText : String :=
  "Guidance only. Use official tools and firmware. This app does not execute flashing operations."

/-- Embedding of `wizard_steps` (lines 218-268 of `main.py`): lower-case both
enum inputs, reject unsupported SoCs with a 400, then select the fixed step
list by the branch cascade, echoing `model` and `android_version` back. -/
def wizard_steps (req : WizardRequest) : Except HTTPError WizardResponse :=
  let soc := pyLower req.soc
  let method := pyLower req.method
  if soc ∈ socSet then
    if method = "fastboot" then
      Except.ok ⟨soc, method, req.model, req.android_version, fastbootSteps, disclaimerText⟩
    else if (method = "odin" ∨ method = "oneui_recovery") ∧ soc = "exynos" then
      Except.ok ⟨soc, method, req.model, req.android_version, odinSteps, disclaimerText⟩
    else if method = "adb_sideload" then
      Except.ok ⟨soc, method, req.model, req.android_version, sideloadSteps, disclaimerText⟩
    else
      Except.error ⟨400, "Unsupported method for selected SoC"⟩
  else
    Except.error ⟨400, "Unsupported SoC"⟩






/-- C1: for every soc whose lower-cased form is a supported SoC and every
method lower-casing to "fastboot", `wizard_steps` succeeds with the same
fixed 8-element step list — independent of the soc value and of the letter
case of either input — together with the constant disclaimer. -/
theorem wizard_fastboot_uniform (soc method : String) (m a : Option String)
    (hs : pyLower soc ∈ socSet) (hm : pyLower method = "fastboot") :
    wizard_steps ⟨soc, method, m, a⟩ =
      Except.ok ⟨pyLower soc, "fastboot", m, a, fastbootSteps, disclaimerText⟩ ∧
    fastbootSteps.length = 8 := by
  refine ⟨?_, rfl⟩
  simp [wizard_steps, hs, hm]

/-- Witness for C1 at soc "QuAlComm", method "Fastboot". -/
theorem wizard_fastboot_uniform_witness :
    wizard_steps ⟨"QuAlComm", "Fastboot", some "Pixel 9 Pro", none⟩ =
      Except.ok ⟨pyLower "QuAlComm", "fastboot", some "Pixel 9 Pro", none,
        fastbootSteps, disclaimerText⟩ ∧
    fastbootSteps.length = 8 :=
  wizard_fastboot_uniform "QuAlComm" "Fastboot" (some "Pixel 9 Pro") none
    (by decide) (by decide)

/-- C2: for every input whose lower-cased soc is not a supported SoC,
`wizard_steps` fails with the 400 "Unsupported SoC" error, whatever the
method: the result does not depend on the method at all. -/
theorem wizard_unsupported_soc (soc method : String) (m a : Option String)
    (hs : pyLower soc ∉ socSet) :
    wizard_steps ⟨soc, method, m, a⟩ = Except.error ⟨400, "Unsupported SoC"⟩ := by
  simp [wizard_steps, hs]

/-- Witness for C2 at soc "tizen", method "fastboot". -/
theorem wizard_unsupported_soc_witness :
    wizard_steps ⟨"tizen", "fastboot", none, none⟩ =
      Except.error ⟨400, "Unsupported SoC"⟩ :=
  wizard_unsupported_soc "tizen" "fastboot" none none (by decide)

/-- C3: for every validated soc and non-fastboot method (after lower-casing):
odin/oneui_recovery on exynos yields the fixed 7-element Odin list,
adb_sideload yields the fixed 6-element sideload list on any validated soc,
and every other combination fails with the 400 "Unsupported method" error. -/
theorem wizard_non_fastboot_branches (soc method : String) (m a : Option String)
    (hs : pyLower soc ∈ socSet) (hm : pyLower method ≠ "fastboot") :
    ((pyLower method = "odin" ∨ pyLower method = "oneui_recovery") →
        pyLower soc = "exynos" →
        wizard_steps ⟨soc, method, m, a⟩ =
          Except.ok ⟨pyLower soc, pyLower method, m, a, odinSteps, disclaimerText⟩ ∧
        odinSteps.length = 7) ∧
    (pyLower method = "adb_sideload" →
        wizard_steps ⟨soc, method, m, a⟩ =
          Except.ok ⟨pyLower soc, pyLower method, m, a, sideloadSteps, disclaimerText⟩ ∧
        sideloadSteps.length = 6) ∧
    (¬ ((pyLower method = "odin" ∨ pyLower method = "oneui_recovery") ∧
          pyLower soc = "exynos") →
      pyLower method ≠ "adb_sideload" →
        wizard_steps ⟨soc, method, m, a⟩ =
          Except.error ⟨400, "Unsupported method for selected SoC"⟩) := by
  refine ⟨fun ho he => ⟨?_, rfl⟩, fun hsl => ⟨?_, rfl⟩, fun hno hnsl => ?_⟩
  · simp [wizard_steps, hs, hm, ho, he, socSet]
  · simp [wizard_steps, hs, hm, hsl]
  · simp [wizard_steps, hs, hm, hno, hnsl]

/-- Witness for C3 at soc "Exynos", method "ODIN". -/
theorem wizard_non_fastboot_branches_witness :
    (( pyLower "ODIN" = "odin" ∨ pyLower "ODIN" = "oneui_recovery") →
        pyLower "Exynos" = "exynos" →
        wizard_steps ⟨"Exynos", "ODIN", none, none⟩ =
          Except.ok ⟨pyLower "Exynos", pyLower "ODIN", none, none, odinSteps, disclaimerText⟩ ∧
        odinSteps.length = 7) ∧
    (pyLower "ODIN" = "adb_sideload" →
        wizard_steps ⟨"Exynos", "ODIN", none, none⟩ =
          Except.ok ⟨pyLower "Exynos", pyLower "ODIN", none, none, sideloadSteps, disclaimerText⟩ ∧
        sideloadSteps.length = 6) ∧
    (¬ ((pyLower "ODIN" = "odin" ∨ pyLower "ODIN" = "oneui_recovery") ∧
          pyLower "Exynos" = "exynos") →
      pyLower "ODIN" ≠ "adb_sideload" →
        wizard_steps ⟨"Exynos", "ODIN", none, none⟩ =
          Except.error ⟨400, "Unsupported method for selected SoC"⟩) :=
  wizard_non_fastboot_branches "Exynos" "ODIN" none none (by decide) (by decide)

/-- C4: for fixed soc and method, the steps and disclaimer of the wizard
result are independent of model and android_version, and a successful
response echoes the request's model and android_version back unmodified. -/
theorem wizard_model_independent :
    (∀ (soc method : String) (m₁ a₁ m₂ a₂ : Option String),
      Except.map (fun r => (r.steps, r.disclaimer)) (wizard_steps ⟨soc, method, m₁, a₁⟩) =
        Except.map (fun r => (r.steps, r.disclaimer)) (wizard_steps ⟨soc, method, m₂, a₂⟩)) ∧
    (∀ (req : WizardRequest) (r : WizardResponse),
      wizard_steps req = Except.ok r →
        r.model = req.model ∧ r.android_version = req.android_version) := by
  constructor
  · intro soc method m₁ a₁ m₂ a₂
    simp only [wizard_steps]
    split_ifs <;> rfl
  · intro req r h
    simp only [wizard_steps] at h
    split_ifs at h <;> simp_all <;> (cases h; simp)

/-- Witness for C4: two fastboot requests differing only in model and
android_version produce the same steps and disclaimer, and the response
echoes the request's model and android_version. -/
theorem wizard_model_independent_witness :
    Except.map (fun r => (r.steps, r.disclaimer))
        (wizard_steps ⟨"mtk", "fastboot", some "Pixel 9 Pro", some "14"⟩) =
      Except.map (fun r => (r.steps, r.disclaimer))
        (wizard_steps ⟨"mtk", "fastboot", some "SM-S921B", none⟩) ∧
    ((⟨"mtk", "fastboot", some "Pixel 9 Pro", some "14", fastbootSteps, disclaimerText⟩ :
        WizardResponse).model = some "Pixel 9 Pro" ∧
     (⟨"mtk", "fastboot", some "Pixel 9 Pro", some "14", fastbootSteps, disclaimerText⟩ :
        WizardResponse).android_version = some "14") :=
  ⟨wizard_model_independent.1 "mtk" "fastboot" (some "Pixel 9 Pro") (some "14")
      (some "SM-S921B") none,
   wizard_model_independent.2 ⟨"mtk", "fastboot", some "Pixel 9 Pro", some "14"⟩
      ⟨"mtk", "fastboot", some "Pixel 9 Pro", some "14", fastbootSteps, disclaimerText⟩
      (by decide)⟩

/-- Embedding of Python's `str.strip()`: drop whitespace from both ends. -/
def pyStrip (s : String) : String :=
  ⟨((s.data.dropWhile Char.isWhitespace).reverse.dropWhile Char.isWhitespace).reverse⟩

/-- Embedding of `out.stdout.splitlines()`: split the text on newlines. -/
def pyLines (s : String) : List String := (s.data.splitOn '\n').map String.mk

/-- The device lines extracted from `adb devices -l` output at lines 133-135
of `main.py`: strip each line, keep the non-empty ones, skip the header. -/
def deviceLines (out : String) : List String :=
  (((pyLines out).map pyStrip).filter (fun l => l ≠ "")).drop 1

/-- The fixed list of seven read-only properties queried at lines 146-154 of
`main.py`. -/
def propKeys : List String :=
  [ "ro.product.brand", "ro.product.device", "ro.product.model", "ro.build.id",
    "ro.build.version.release", "ro.build.version.sdk", "ro.build.fingerprint" ]

/-- Host environment the probe runs against: whether `adb` resolves on PATH,
and the outcome of each external invocation (`Except.error` models a raised
exception such as a timeout; `Except.ok` carries the captured stdout). -/
structure AdbEnv where
  adb_path : Option String
  devicesListing : Except String String
  getpropAll : Except String String
  getpropKey : String → Except String String

/-- Response body of `GET /api/devices/adb-info`. `devices_raw` and `props`
are `none` when the corresponding dict key is absent from the Python
response. -/
structure AdbInfo where
  adb_available : Bool
  adb_path : Option String
  devices : List String
  errors : List String
  devices_raw : Option String
  props : Option (List (String × Option String))
deriving DecidableEq, Repr

/-- Embedding of `adb_info` (lines 117-165 of `main.py`): return immediately
when `adb` is absent; capture a listing failure into `errors`; skip property
lookup when no device is listed; otherwise query each of the seven
properties, a per-key failure yielding `none` for that key only. -/
def adb_info (env : AdbEnv) : AdbInfo :=
  match env.adb_path with
  | none => ⟨false, none, [], [], none, none⟩
  | some p =>
    match env.devicesListing with
    | .error e => ⟨true, some p, [], [e], none, some []⟩
    | .ok out =>
      let devs := deviceLines out
      if devs = [] then
        ⟨true, some p, devs, [], some out, some []⟩
      else
        match env.getpropAll with
        | .error e => ⟨true, some p, devs, [e], some out, some []⟩
        | .ok _ =>
          ⟨true, some p, devs, [], some out,
            some (propKeys.map (fun k =>
              (k, match env.getpropKey k with
                  | .ok o => some (pyStrip o)
                  | .error _ => none)))⟩

/-- Looking up a key of `l` in the pair list `l.map (fun x => (x, f x))`
recovers `f` at that key. -/
theorem lookup_map_pair (f : String → Option String) (l : List String) (k : String)
    (hk : k ∈ l) : (l.map (fun x => (x, f x))).lookup k = some (f k) := by
  induction l with
  | nil => cases hk
  | cons x xs ih =>
    rcases List.mem_cons.mp hk with h | h
    · subst h; simp [List.lookup]
    · by_cases hx : k = x
      · subst hx; simp [List.lookup]
      · have hb : (k == x) = false := beq_eq_false_iff_ne.mpr hx
        simp [List.lookup, hb, ih h]

/-- C5: when the adb executable is absent from PATH, the probe returns
availability false, empty device and error lists, and no props entry; the
operation is total, so nothing is raised. -/
theorem adb_info_no_adb (env : AdbEnv) (h : env.adb_path = none) :
    adb_info env = ⟨false, none, [], [], none, none⟩ := by
  rcases env with ⟨ap, dl, ga, gk⟩
  cases h
  rfl

/-- Witness for C5 at a concrete environment without adb. -/
theorem adb_info_no_adb_witness :
    adb_info ⟨none, Except.error "no listing", Except.error "no getprop",
        fun _ => Except.error "no getprop"⟩ =
      ⟨false, none, [], [], none, none⟩ :=
  adb_info_no_adb _ rfl

/-- C6: with adb present but zero devices listed, the probe returns an empty
props map, and its result is independent of the property-query outcomes, so
no property query is consulted at all. -/
theorem adb_info_zero_devices (env env' : AdbEnv) (p out : String)
    (hp : env.adb_path = some p) (hl : env.devicesListing = Except.ok out)
    (hd : deviceLines out = [])
    (hp' : env'.adb_path = some p) (hl' : env'.devicesListing = Except.ok out) :
    adb_info env = ⟨true, some p, [], [], some out, some []⟩ ∧
    adb_info env' = adb_info env := by
  rcases env with ⟨ap, dl, ga, gk⟩
  rcases env' with ⟨ap', dl', ga', gk'⟩
  cases hp; cases hl; cases hp'; cases hl'
  constructor
  · simp [adb_info, hd]
  · simp [adb_info, hd]

/-- Witness for C6: a header-only listing yields an empty props map, whether
the property queries would fail or succeed. -/
theorem adb_info_zero_devices_witness :
    adb_info ⟨some "/usr/bin/adb", Except.ok "List of devices attached\n",
        Except.error "unused", fun _ => Except.error "unused"⟩ =
      ⟨true, some "/usr/bin/adb", [], [], some "List of devices attached\n", some []⟩ ∧
    adb_info ⟨some "/usr/bin/adb", Except.ok "List of devices attached\n",
        Except.ok "all", fun _ => Except.ok "value"⟩ =
      adb_info ⟨some "/usr/bin/adb", Except.ok "List of devices attached\n",
        Except.error "unused", fun _ => Except.error "unused"⟩ :=
  adb_info_zero_devices _ _ "/usr/bin/adb" "List of devices attached\n"
    rfl rfl (by decide) rfl rfl

/-- Concrete probe environment in which exactly one per-property query (for
`ro.product.brand`) fails with a timeout and everything else succeeds. -/
def envOneFailure : AdbEnv :=
  ⟨some "/usr/bin/adb",
   Except.ok "List of devices attached\nemulator-5554 device\n",
   Except.ok "ok",
   fun k => if k = "ro.product.brand" then Except.error "Command timed out"
            else Except.ok " value "⟩

/-- Counterexample to C7 as stated: a per-property failure is NOT captured
into the errors list — the errors list stays empty and the failure shows up
only as a null value for that property. -/
theorem adb_info_failure_not_in_errors :
    envOneFailure.getpropKey "ro.product.brand" = Except.error "Command timed out" ∧
    (adb_info envOneFailure).errors = [] ∧
    ((adb_info envOneFailure).props.getD []).lookup "ro.product.brand" = some none := by
  refine ⟨rfl, ?_, ?_⟩ <;> decide

/-- C7 (amended): with adb present, a non-empty device list and a successful
batch getprop, every per-property failure yields a null value for that
property only, every successful property query contributes its stripped
output, and the probe still returns successfully with an empty errors list
(per-property failures are captured as null values, not as errors). -/
theorem adb_info_prop_failures (env : AdbEnv) (p out all : String)
    (hp : env.adb_path = some p) (hl : env.devicesListing = Except.ok out)
    (hd : ¬ deviceLines out = []) (ha : env.getpropAll = Except.ok all) :
    (adb_info env).props =
      some (propKeys.map (fun k =>
        (k, match env.getpropKey k with
            | .ok o => some (pyStrip o)
            | .error _ => none))) ∧
    (∀ k, k ∈ propKeys → ∀ e, env.getpropKey k = Except.error e →
      ((adb_info env).props.getD []).lookup k = some none) ∧
    (∀ k, k ∈ propKeys → ∀ v, env.getpropKey k = Except.ok v →
      ((adb_info env).props.getD []).lookup k = some (some (pyStrip v))) ∧
    (adb_info env).errors = [] ∧ (adb_info env).adb_available = true := by
  rcases env with ⟨ap, dl, ga, gk⟩
  cases hp; cases hl; cases ha
  refine ⟨by simp [adb_info, hd], ?_, ?_, by simp [adb_info, hd], by simp [adb_info, hd]⟩
  · intro k hk e he
    have he' : gk k = Except.error e := he
    have := lookup_map_pair
      (fun k => match gk k with | .ok o => some (pyStrip o) | .error _ => none) propKeys k hk
    simp [adb_info, hd, this, he']
  · intro k hk v hv
    have hv' : gk k = Except.ok v := hv
    have := lookup_map_pair
      (fun k => match gk k with | .ok o => some (pyStrip o) | .error _ => none) propKeys k hk
    simp [adb_info, hd, this, hv']

/-- Witness for C7 (amended) at `envOneFailure`: the failing brand query
yields a null value while a succeeding query yields its stripped output. -/
theorem adb_info_prop_failures_witness :
    ((adb_info envOneFailure).props.getD []).lookup "ro.product.brand" = some none ∧
    ((adb_info envOneFailure).props.getD []).lookup "ro.product.model" =
      some (some (pyStrip " value ")) :=
  ⟨(adb_info_prop_failures envOneFailure "/usr/bin/adb"
      "List of devices attached\nemulator-5554 device\n" "ok"
      rfl rfl (by decide) rfl).2.1 "ro.product.brand" (by decide)
      "Command timed out" (by decide),
   (adb_info_prop_failures envOneFailure "/usr/bin/adb"
      "List of devices attached\nemulator-5554 device\n" "ok"
      rfl rfl (by decide) rfl).2.2.1 "ro.product.model" (by decide)
      " value " (by decide)⟩

/-- Value stored in a document field: a string, a boolean, a string list, a
store-native ObjectId, or Python's `None`. -/
inductive BVal where
  | s (v : String)
  | b (v : Bool)
  | arr (v : List String)
  | oid (v : Nat)
  | null
deriving DecidableEq, Repr

/-- Embedding of Python's `str(...)` on stored values, as used on the popped
`_id` at line 196 of `main.py`; ObjectIds render to an opaque string. -/
def bvalToString : BVal → String
  | .s v => v
  | .b v => if v then "True" else "False"
  | .arr _ => "list"
  | .oid v => Nat.repr v
  | .null => "None"

/-- A document: an insertion-ordered dict from field names to values. -/
abbrev Doc := List (String × BVal)

/-- Request body of `POST /api/firmware` (`FirmwareIn` in `main.py`). -/
structure FirmwareIn where
  soc : String
  oem : String
  model : String
  android_version : String
  build_number : Option String
  channel : Option String
  url : Option String
  checksum_sha256 : Option String
  notes : Option String
deriving DecidableEq, Repr

/-- Request body of `POST /api/consent` (`ConsentIn` in `main.py`). -/
structure ConsentIn where
  customer_name : String
  device_model : String
  android_version : Option String
  operations : List String
  checklist_confirmed : Bool
  signature : Option String
deriving DecidableEq, Repr

/-- Request body of `POST /api/firmware/search` (`FirmwareFilter`). -/
structure FirmwareFilter where
  model : Option String
  soc : Option String
  android_version : Option String
deriving DecidableEq, Repr

/-- An optional string field as dumped by `model_dump()`. -/
def optVal : Option String → BVal
  | some v => .s v
  | none => .null

/-- `item.model_dump()` for a `FirmwareIn` (field order of the class). -/
def firmwareDump (i : FirmwareIn) : Doc :=
  [ ("soc", .s i.soc), ("oem", .s i.oem), ("model", .s i.model),
    ("android_version", .s i.android_version), ("build_number", optVal i.build_number),
    ("channel", optVal i.channel), ("url", optVal i.url),
    ("checksum_sha256", optVal i.checksum_sha256), ("notes", optVal i.notes) ]

/-- `consent.model_dump()` for a `ConsentIn` (field order of the class). -/
def consentDump (c : ConsentIn) : Doc :=
  [ ("customer_name", .s c.customer_name), ("device_model", .s c.device_model),
    ("android_version", optVal c.android_version), ("operations", .arr c.operations),
    ("checklist_confirmed", .b c.checklist_confirmed), ("signature", optVal c.signature) ]

/-- One conditional query entry of `search_firmware` (lines 186-191 of
`main.py`): Python's `if filters.model:` is true exactly when the field is
present and non-empty. -/
def queryField (name : String) (o : Option String) : List (String × BVal) :=
  match o with
  | some v => if v = "" then [] else [(name, BVal.s v)]
  | none => []

/-- The query dict built by `search_firmware` (lines 185-191 of `main.py`),
in the insertion order model, soc, android_version. -/
def buildQuery (f : FirmwareFilter) : List (String × BVal) :=
  queryField "model" f.model ++ queryField "soc" f.soc ++
    queryField "android_version" f.android_version

/-- Equality-conjunction matching of a document against a query dict. -/
def matchesQuery (q : List (String × BVal)) (d : Doc) : Bool :=
  q.all (fun kv => d.lookup kv.1 == some kv.2)

/-- Modelled from the spec: `get_documents(collection, query, limit)` of the
external document store (the `database` module is not under `src/`) — returns
the stored documents matching the equality-conjunction query, at most
`limit` of them. -/
def get_documents (coll : List Doc) (q : List (String × BVal)) (limit : Nat) : List Doc :=
  (coll.filter (fun d => matchesQuery q d)).take limit

/-- Python dict assignment `d[k] = v`: replace the value at an existing key
in place, otherwise append the new entry at the end. -/
def dictSet : Doc → String → BVal → Doc
  | [], k, v => [(k, v)]
  | kv :: tl, k, v => if kv.1 == k then (k, v) :: tl else kv :: dictSet tl k v

/-- The per-document identifier translation of `search_firmware` (lines
194-196 of `main.py`): `if "_id" in d: d["id"] = str(d.pop("_id"))`. -/
def popId (d : Doc) : Doc :=
  match d.lookup "_id" with
  | some v => dictSet (d.filter (fun kv => !(kv.1 == "_id"))) "id" (BVal.s (bvalToString v))
  | none => d

/-- Response body of the two create endpoints (`{id, status}`). -/
structure SaveResponse where
  id : String
  status : String
deriving DecidableEq, Repr

/-- Embedding of `add_firmware` (lines 171-178 of `main.py`): pass the dumped
record to `create_document`; a raising store call becomes a 503, a returned
id comes back with status "saved". -/
def add_firmware (create_document : String → Doc → Except String String)
    (item : FirmwareIn) : Except HTTPError SaveResponse :=
  match create_document "firmware" (firmwareDump item) with
  | .ok fid => .ok ⟨fid, "saved"⟩
  | .error e => .error ⟨503, "Database unavailable: " ++ e⟩

/-- Embedding of `record_consent` (lines 205-212 of `main.py`). -/
def record_consent (create_document : String → Doc → Except String String)
    (consent : ConsentIn) : Except HTTPError SaveResponse :=
  match create_document "consent" (consentDump consent) with
  | .ok cid => .ok ⟨cid, "recorded"⟩
  | .error e => .error ⟨503, "Database unavailable: " ++ e⟩

/-- Embedding of `search_firmware` (lines 181-199 of `main.py`): build the
query, fetch at most 100 documents, translate `_id` to a string `id` on each
document; a raising store call becomes a 503. -/
def search_firmware (getDocs : String → List (String × BVal) → Nat → Except String (List Doc))
    (filters : FirmwareFilter) : Except HTTPError (List Doc) :=
  match getDocs "firmware" (buildQuery filters) 100 with
  | .ok docs => .ok (docs.map popId)
  | .error e => .error ⟨503, "Database unavailable: " ++ e⟩

/-- `search_firmware` run against the spec-modelled document store holding
the collection `coll`. -/
def searchWithStore (coll : List Doc) (f : FirmwareFilter) : Except HTTPError (List Doc) :=
  search_firmware (fun _ q lim => Except.ok (get_documents coll q lim)) f

/-- Lookup distributes over list append, preferring the left list. -/
theorem lookup_append (l₁ l₂ : List (String × BVal)) (k : String) :
    (l₁ ++ l₂).lookup k =
      match l₁.lookup k with
      | some v => some v
      | none => l₂.lookup k := by
  induction l₁ with
  | nil => rfl
  | cons kv tl ih =>
    by_cases h : (k == kv.1) = true
    · simp [List.lookup, h]
    · have h' : (k == kv.1) = false := by simpa using h
      simp [List.lookup, h', ih]

/-- Lookup in a single conditional query entry. -/
theorem lookup_queryField (name : String) (o : Option String) (k : String) :
    (queryField name o).lookup k =
      if k = name then
        (match o with
         | some v => if v = "" then none else some (BVal.s v)
         | none => none)
      else none := by
  cases o with
  | none => simp [queryField, List.lookup]
  | some v =>
    by_cases hv : v = ""
    · simp [queryField, hv, List.lookup]
    · by_cases hk : k = name
      · subst hk; simp [queryField, hv, List.lookup]
      · have hb : (k == name) = false := beq_eq_false_iff_ne.mpr hk
        simp [queryField, hv, List.lookup, hb, hk]

/-- After `dictSet d k v`, the key `k` maps to `v`. -/
theorem lookup_dictSet_self (d : Doc) (k : String) (v : BVal) :
    (dictSet d k v).lookup k = some v := by
  induction d with
  | nil => simp [dictSet, List.lookup]
  | cons kv tl ih =>
    by_cases h : (kv.1 == k) = true
    · simp [dictSet, h, List.lookup]
    · have h' : (kv.1 == k) = false := by simpa using h
      have hk : (k == kv.1) = false :=
        beq_eq_false_iff_ne.mpr (Ne.symm (beq_eq_false_iff_ne.mp h'))
      simp [dictSet, h', List.lookup, hk, ih]

/-- `dictSet d k v` leaves every other key unchanged. -/
theorem lookup_dictSet_ne (d : Doc) (k x : String) (v : BVal) (hx : ¬ x = k) :
    (dictSet d k v).lookup x = d.lookup x := by
  have hxk : (x == k) = false := beq_eq_false_iff_ne.mpr hx
  induction d with
  | nil => simp [dictSet, List.lookup, hxk]
  | cons kv tl ih =>
    by_cases h : (kv.1 == k) = true
    · have hkv : kv.1 = k := eq_of_beq h
      have hxkv : (x == kv.1) = false := by rw [hkv]; exact hxk
      simp [dictSet, h, List.lookup, hxk, hxkv]
    · have h' : (kv.1 == k) = false := by simpa using h
      by_cases hxv : (x == kv.1) = true
      · simp [dictSet, h', List.lookup, hxv]
      · have hxv' : (x == kv.1) = false := by simpa using hxv
        simp [dictSet, h', List.lookup, hxv', ih]

/-- Filtering a key out of a document makes its lookup fail. -/
theorem lookup_filter_out (d : Doc) (k : String) :
    (d.filter (fun kv => !(kv.1 == k))).lookup k = none := by
  induction d with
  | nil => rfl
  | cons kv tl ih =>
    by_cases h : (kv.1 == k) = true
    · simp [List.filter, h, ih]
    · have h' : (kv.1 == k) = false := by simpa using h
      have hk : (k == kv.1) = false :=
        beq_eq_false_iff_ne.mpr (Ne.symm (beq_eq_false_iff_ne.mp h'))
      simp [List.filter, h', List.lookup, hk, ih]

/-- Filtering a key out of a document leaves every other lookup unchanged. -/
theorem lookup_filter_keep (d : Doc) (k x : String) (hx : ¬ x = k) :
    (d.filter (fun kv => !(kv.1 == k))).lookup x = d.lookup x := by
  induction d with
  | nil => rfl
  | cons kv tl ih =>
    by_cases h : (kv.1 == k) = true
    · have hkv : kv.1 = k := eq_of_beq h
      have hxkv : (x == kv.1) = false := beq_eq_false_iff_ne.mpr (by rw [hkv]; exact hx)
      simp [List.filter, h, List.lookup, hxkv, ih]
    · have h' : (kv.1 == k) = false := by simpa using h
      by_cases hxv : (x == kv.1) = true
      · simp [List.filter, h', List.lookup, hxv]
      · have hxv' : (x == kv.1) = false := by simpa using hxv
        simp [List.filter, h', List.lookup, hxv', ih]

/-- On a document carrying a native `_id`, `popId` removes `_id`, exposes its
string rendering under `id`, and leaves all other fields unchanged. -/
theorem popId_spec (d : Doc) (v : BVal) (hv : d.lookup "_id" = some v) :
    (popId d).lookup "_id" = none ∧
    (popId d).lookup "id" = some (BVal.s (bvalToString v)) ∧
    ∀ x, ¬ x = "_id" → ¬ x = "id" → (popId d).lookup x = d.lookup x := by
  unfold popId
  rw [hv]
  refine ⟨?_, lookup_dictSet_self _ _ _, ?_⟩
  · rw [lookup_dictSet_ne _ _ _ _ (by decide)]
    exact lookup_filter_out d "_id"
  · intro x hx1 hx2
    rw [lookup_dictSet_ne _ _ _ _ hx2]
    exact lookup_filter_keep d "_id" x hx1

/-- Stored document used to exercise the search path: a firmware record for
model "Pixel 9 Pro" under native identifier `ObjectId 7`. -/
def docPixel : Doc :=
  [("_id", BVal.oid 7), ("soc", BVal.s "qualcomm"), ("model", BVal.s "Pixel 9 Pro")]

/-- Counterexample to C8 as stated: with the filter `{model: ""}` the model
field is present in the request, yet the built query is empty — the field
contributes no constraint, and a record whose model is "Pixel 9 Pro" (not
the empty string) is still returned. -/
theorem search_present_empty_field_dropped :
    (⟨some "", none, none⟩ : FirmwareFilter).model = some "" ∧
    buildQuery ⟨some "", none, none⟩ = [] ∧
    searchWithStore [docPixel] ⟨some "", none, none⟩ =
      Except.ok [[("soc", BVal.s "qualcomm"), ("model", BVal.s "Pixel 9 Pro"),
        ("id", BVal.s "7")]] ∧
    docPixel.lookup "model" = some (BVal.s "Pixel 9 Pro") :=
  ⟨rfl, rfl, by decide, rfl⟩

/-- C8 (amended): the search query contains exactly the filter fields that
are present and non-empty (absent or empty fields impose no constraint; an
empty filter matches every record); at most 100 records are returned; every
returned record stems from a matching stored record with the native `_id`
field removed and exposed as an opaque string field `id`, all other original
fields intact. -/
theorem search_firmware_contract (coll : List Doc) (f : FirmwareFilter) :
    ((buildQuery f).lookup "model" =
        (match f.model with
         | some v => if v = "" then none else some (BVal.s v)
         | none => none) ∧
     (buildQuery f).lookup "soc" =
        (match f.soc with
         | some v => if v = "" then none else some (BVal.s v)
         | none => none) ∧
     (buildQuery f).lookup "android_version" =
        (match f.android_version with
         | some v => if v = "" then none else some (BVal.s v)
         | none => none) ∧
     (∀ k, ¬ k = "model" → ¬ k = "soc" → ¬ k = "android_version" →
        (buildQuery f).lookup k = none)) ∧
    (∀ d : Doc, matchesQuery (buildQuery ⟨none, none, none⟩) d = true) ∧
    (∃ items : List Doc,
      searchWithStore coll f = Except.ok items ∧
      items.length ≤ 100 ∧
      (∀ d', d' ∈ items →
        ∃ d, d ∈ coll ∧ matchesQuery (buildQuery f) d = true ∧ d' = popId d ∧
          (∀ v, d.lookup "_id" = some v →
            d'.lookup "_id" = none ∧
            d'.lookup "id" = some (BVal.s (bvalToString v)) ∧
            (∀ x, ¬ x = "_id" → ¬ x = "id" → d'.lookup x = d.lookup x)))) := by
  obtain ⟨m, s, a⟩ := f
  refine ⟨⟨?_, ?_, ?_, ?_⟩, fun d => rfl, ?_⟩
  · simp [buildQuery, lookup_append, lookup_queryField]
    cases m with
    | none => rfl
    | some v => by_cases hv : v = "" <;> simp [hv]
  · simp [buildQuery, lookup_append, lookup_queryField]
    cases s with
    | none => rfl
    | some v => by_cases hv : v = "" <;> simp [hv]
  · simp [buildQuery, lookup_append, lookup_queryField]
  · intro k h1 h2 h3
    simp [buildQuery, lookup_append, lookup_queryField, h1, h2, h3]
  · refine ⟨(get_documents coll (buildQuery ⟨m, s, a⟩) 100).map popId, rfl, ?_, ?_⟩
    · simp [get_documents, List.length_take]
    · intro d' hd'
      rcases List.mem_map.mp hd' with ⟨d, hd, rfl⟩
      have hdf : d ∈ coll.filter (fun d => matchesQuery (buildQuery ⟨m, s, a⟩) d) :=
        List.mem_of_mem_take hd
      rcases List.mem_filter.mp hdf with ⟨hdc, hdm⟩
      exact ⟨d, hdc, hdm, rfl, fun v hv => popId_spec d v hv⟩

/-- Witness for C8 (amended): the contract instantiated on a one-record
store and the filter `{model: "Pixel 9 Pro"}`. -/
theorem search_firmware_contract_witness :
    (buildQuery ⟨some "Pixel 9 Pro", none, none⟩).lookup "model" =
      some (BVal.s "Pixel 9 Pro") ∧
    matchesQuery (buildQuery ⟨none, none, none⟩) docPixel = true ∧
    (popId docPixel).lookup "_id" = none ∧
    (popId docPixel).lookup "id" = some (BVal.s (bvalToString (BVal.oid 7))) ∧
    (popId docPixel).lookup "model" = docPixel.lookup "model" := by
  obtain ⟨⟨hm, -, -, -⟩, hall, items, hok, -, hmem⟩ :=
    search_firmware_contract [docPixel] ⟨some "Pixel 9 Pro", none, none⟩
  have hitems : items = [popId docPixel] := by
    have heval : searchWithStore [docPixel] ⟨some "Pixel 9 Pro", none, none⟩ =
        Except.ok [popId docPixel] := by decide
    rw [hok] at heval
    exact Except.ok.inj heval
  subst hitems
  obtain ⟨d, hdc, -, hEq, hprops⟩ := hmem (popId docPixel) (by simp)
  have hd : d = docPixel := by simpa using hdc
  subst hd
  obtain ⟨h1, h2, h3⟩ := hprops (BVal.oid 7) rfl
  exact ⟨by simpa using hm, hall docPixel, h1, h2,
    h3 "model" (by decide) (by decide)⟩

/-- Sample firmware submission used in witnesses. -/
def sampleFirmware : FirmwareIn :=
  ⟨"qualcomm", "Google", "Pixel 9 Pro", "15", none, some "stable", none, none, none⟩

/-- Sample consent submission used in witnesses. -/
def sampleConsent : ConsentIn :=
  ⟨"Jordan Doe", "Pixel 9 Pro", some "15", ["diagnostics"], true, none⟩

/-- C9: each persistence handler fails with a 503 exactly when its single
store call raises; on success `add_firmware` returns the id with status
"saved", `record_consent` the id with status "recorded", and
`search_firmware` the translated documents — the dumped request record is
passed to the store verbatim and the call is made once, with no retry. -/
theorem store_unavailable_503 :
    (∀ (create_document : String → Doc → Except String String) (item : FirmwareIn),
      ((∃ e, add_firmware create_document item =
          Except.error ⟨503, "Database unavailable: " ++ e⟩) ↔
        (∃ e, create_document "firmware" (firmwareDump item) = Except.error e)) ∧
      (∀ fid, create_document "firmware" (firmwareDump item) = Except.ok fid →
        add_firmware create_document item = Except.ok ⟨fid, "saved"⟩)) ∧
    (∀ (create_document : String → Doc → Except String String) (c : ConsentIn),
      ((∃ e, record_consent create_document c =
          Except.error ⟨503, "Database unavailable: " ++ e⟩) ↔
        (∃ e, create_document "consent" (consentDump c) = Except.error e)) ∧
      (∀ cid, create_document "consent" (consentDump c) = Except.ok cid →
        record_consent create_document c = Except.ok ⟨cid, "recorded"⟩)) ∧
    (∀ (getDocs : String → List (String × BVal) → Nat → Except String (List Doc))
        (f : FirmwareFilter),
      ((∃ e, search_firmware getDocs f =
          Except.error ⟨503, "Database unavailable: " ++ e⟩) ↔
        (∃ e, getDocs "firmware" (buildQuery f) 100 = Except.error e)) ∧
      (∀ docs, getDocs "firmware" (buildQuery f) 100 = Except.ok docs →
        search_firmware getDocs f = Except.ok (docs.map popId))) := by
  refine ⟨fun create item => ⟨⟨?_, ?_⟩, ?_⟩,
          fun create c => ⟨⟨?_, ?_⟩, ?_⟩,
          fun getDocs f => ⟨⟨?_, ?_⟩, ?_⟩⟩
  · rintro ⟨e, he⟩
    rcases h : create "firmware" (firmwareDump item) with v | v <;>
      simp [add_firmware, h] at he
    exact ⟨v, rfl⟩
  · rintro ⟨e, he⟩
    exact ⟨e, by simp [add_firmware, he]⟩
  · intro fid hfid
    simp [add_firmware, hfid]
  · rintro ⟨e, he⟩
    rcases h : create "consent" (consentDump c) with v | v <;>
      simp [record_consent, h] at he
    exact ⟨v, rfl⟩
  · rintro ⟨e, he⟩
    exact ⟨e, by simp [record_consent, he]⟩
  · intro cid hcid
    simp [record_consent, hcid]
  · rintro ⟨e, he⟩
    rcases h : getDocs "firmware" (buildQuery f) 100 with v | v <;>
      simp [search_firmware, h] at he
    exact ⟨v, rfl⟩
  · rintro ⟨e, he⟩
    exact ⟨e, by simp [search_firmware, he]⟩
  · intro docs hdocs
    simp [search_firmware, hdocs]

/-- Witness for C9: concrete succeeding and failing stores. -/
theorem store_unavailable_503_witness :
    add_firmware (fun _ _ => Except.ok "abc123") sampleFirmware =
      Except.ok ⟨"abc123", "saved"⟩ ∧
    record_consent (fun _ _ => Except.ok "c1") sampleConsent =
      Except.ok ⟨"c1", "recorded"⟩ ∧
    (∃ e, add_firmware (fun _ _ => Except.error "connection refused") sampleFirmware =
      Except.error ⟨503, "Database unavailable: " ++ e⟩) ∧
    search_firmware (fun _ _ _ => Except.ok []) ⟨none, none, none⟩ = Except.ok [] :=
  ⟨(store_unavailable_503.1 (fun _ _ => Except.ok "abc123") sampleFirmware).2 "abc123" rfl,
   (store_unavailable_503.2.1 (fun _ _ => Except.ok "c1") sampleConsent).2 "c1" rfl,
   (store_unavailable_503.1 (fun _ _ => Except.error "connection refused")
      sampleFirmware).1.mpr ⟨"connection refused", rfl⟩,
   (store_unavailable_503.2.2 (fun _ _ _ => Except.ok []) ⟨none, none, none⟩).2 [] rfl⟩

/-- C10: a filter field that is present but equal to the empty string is
treated exactly like an absent field — it contributes no constraint, and in
particular `search({model: ""})` equals `search({})` on any store. -/
theorem search_empty_string_like_absent :
    (∀ (getDocs : String → List (String × BVal) → Nat → Except String (List Doc))
        (s a : Option String),
      search_firmware getDocs ⟨some "", s, a⟩ = search_firmware getDocs ⟨none, s, a⟩) ∧
    (∀ (getDocs : String → List (String × BVal) → Nat → Except String (List Doc))
        (m a : Option String),
      search_firmware getDocs ⟨m, some "", a⟩ = search_firmware getDocs ⟨m, none, a⟩) ∧
    (∀ (getDocs : String → List (String × BVal) → Nat → Except String (List Doc))
        (m s : Option String),
      search_firmware getDocs ⟨m, s, some ""⟩ = search_firmware getDocs ⟨m, s, none⟩) ∧
    (∀ (getDocs : String → List (String × BVal) → Nat → Except String (List Doc)),
      search_firmware getDocs ⟨some "", none, none⟩ =
        search_firmware getDocs ⟨none, none, none⟩) := by
  refine ⟨fun getDocs s a => ?_, fun getDocs m a => ?_, fun getDocs m s => ?_,
    fun getDocs => ?_⟩ <;> simp [search_firmware, buildQuery, queryField]

end Backend
